import Mathlib

/-!
Verification development for the amigasd bridge.

The repository has two source files:
  src/avr/main.c            - AVR relay controller firmware (frame decoding,
                              read/write transfer loops, card-detect mirror)
  src/amiga/source/device.c - Amiga block-device driver (request dispatch,
                              geometry, change interrupts, open/close)

Both are shallowly embedded below.  Bytes are modelled as Nat values; the
eight-bit data value carried by the parallel bus is split in hardware across
PINC bits 0-5 (data bits 0-5) and PIND bits 6-7 (data bits 6-7), so sampling
PINC corresponds to masking with 63 and sampling the PIND data bits to
masking with 192.  Clock-line busy-waits are synchronization only and carry
no data; they are elided, with each clocked byte modelled as one sample.
-/

/-! ## Relay controller: SPI clock-rate register values (src/avr/main.c)

SPCR with SPE (bit 6) and MSTR (bit 4) set is the fast setting written for a
clock-rate command with bit 0 of the header set; adding SPR1 (bit 1) and
SPR0 (bit 0) gives the slow setting written otherwise. -/

def SPCR_FAST : Nat := 64 + 16

def SPCR_SLOW : Nat := 64 + 16 + 2 + 1

/-- Outcome of decoding one frame header on the relay controller. -/
inductive BusFrame where
  | readXfer (count : Nat) : BusFrame
  | writeXfer (count : Nat) : BusFrame
  | setClock (spcr : Nat) : BusFrame
  | noFrame : BusFrame
deriving DecidableEq, Repr

/-- Frame decoding of the relay controller main loop (src/avr/main.c lines
88-135, labels main_loop / do_read1 / do_write1).  The argument b0 is the
byte on the bus after the first clocked step and b1 the byte after the
second clocked step (sampled only when the code performs a second sample).
The result pairs the decoded frame with the number of header bytes the code
consumed.  The count merges mirror the source exactly:
short header count is PINC (bits 0-5); the long header count is
(pin_c AND 31) shifted left 8, merged with (pin_d AND 192) OR PINC of the
second sample; the clock-rate test is (pin_c AND 62) == 0 with bit 0
selecting the fast SPCR value. -/
def decode_frame (b0 b1 : Nat) : BusFrame × Nat :=
  if b0 &&& 128 = 0 then
    if b0 &&& 64 ≠ 0 then
      (BusFrame.readXfer (b0 &&& 63), 1)
    else
      (BusFrame.writeXfer (b0 &&& 63), 1)
  else
    if b0 &&& 64 = 0 then
      let count := ((b0 &&& 31) <<< 8) ||| ((b1 &&& 192) ||| (b1 &&& 63))
      if b0 &&& 32 ≠ 0 then
        (BusFrame.readXfer count, 2)
      else
        (BusFrame.writeXfer count, 2)
    else if b0 &&& 62 = 0 then
      (BusFrame.setClock (if b0 &&& 1 ≠ 0 then SPCR_FAST else SPCR_SLOW), 1)
    else
      (BusFrame.noFrame, 1)

/-- Frame decoding as the specification describes it, word for word (spec
section 4.1, claims C2 and C5): when the top bit of byte 0 is set, a second
byte is sampled on the next clocked step, and bit 6 of that SECOND byte
decides between a long header (clear) and the remaining shapes; the
clock-rate shape additionally requires bits 1-5 of byte 0 to be all zero;
anything else is rejected with no transfer.  This definition exists only to
be compared against decode_frame, which is the one read off the source. -/
def decode_frame_spec (b0 b1 : Nat) : BusFrame × Nat :=
  if b0 &&& 128 = 0 then
    if b0 &&& 64 ≠ 0 then
      (BusFrame.readXfer (b0 &&& 63), 1)
    else
      (BusFrame.writeXfer (b0 &&& 63), 1)
  else
    if b1 &&& 64 = 0 then
      let count := ((b0 &&& 31) <<< 8) ||| ((b1 &&& 192) ||| (b1 &&& 63))
      if b0 &&& 32 ≠ 0 then
        (BusFrame.readXfer count, 2)
      else
        (BusFrame.writeXfer count, 2)
    else if b0 &&& 62 = 0 then
      (BusFrame.setClock (if b0 &&& 1 ≠ 0 then SPCR_FAST else SPCR_SLOW), 2)
    else
      (BusFrame.noFrame, 2)

/-- Frame decoding as the AMENDED claim C2 words it: the discriminator for
the two-byte shapes is bit 6 of byte 0 itself, tested before any second
sample; a second byte is clocked in only for the long header, whose count is
the low five bits of byte 0 as the high part and all eight bits of byte 1 as
the low part; direction comes from bit 5 of byte 0; the clock-rate command
(bit 6 of byte 0 set, bits 1-5 of byte 0 zero) and the rejected fallthrough
consume no second byte.  Written with testBit and arithmetic, to be proved
equal to decode_frame. -/
def decode_frame_amended (b0 b1 : Nat) : BusFrame × Nat :=
  if !b0.testBit 7 then
    if b0.testBit 6 then
      (BusFrame.readXfer (b0 % 64), 1)
    else
      (BusFrame.writeXfer (b0 % 64), 1)
  else if !b0.testBit 6 then
    let count := (b0 % 32) * 256 + b1 % 256
    if b0.testBit 5 then
      (BusFrame.readXfer count, 2)
    else
      (BusFrame.writeXfer count, 2)
  else if b0 / 2 % 32 = 0 then
    (BusFrame.setClock (if b0.testBit 0 then SPCR_FAST else SPCR_SLOW), 1)
  else
    (BusFrame.noFrame, 1)

/-! ## Relay controller: read transfer phase (src/avr/main.c lines 137-183) -/

/-- Driven levels of the two data buses and the busy/idle line after a
transfer: ddrc/ddrd are the direction registers (a set bit is an output) and
portc/portd the output latches.  Bit 4 of port D is the busy/idle line. -/
structure BusDrive where
  ddrc : Nat
  portc : Nat
  ddrd : Nat
  portd : Nat
deriving DecidableEq, Repr

/-- The read_loop label of src/avr/main.c.  Each iteration waits for the SPI
flag, latches SPDR, waits one clocked step, and presents the latched byte on
the two buses; only THEN is byte_count tested, and the loop repeats with
byte_count - 1 while it was nonzero.  The stream spi gives the successive
SPDR bytes delivered by the card interface (masked to eight bits, as SPDR is
an eight-bit register); i indexes the next one.  The returned list is the
sequence of bytes presented on the buses, in order. -/
def read_loop (spi : Nat → Nat) (i : Nat) (byte_count : Nat) : List Nat :=
  (spi i % 256) ::
    match byte_count with
    | 0 => []
    | n + 1 => read_loop spi (i + 1) n

/-- Result of one full read transfer phase: the bytes presented on the buses
and the bus drive state left behind when control returns to main_loop. -/
structure ReadResult where
  presented : List Nat
  finalBus : BusDrive
deriving DecidableEq, Repr

/-- The do_read path of src/avr/main.c entered with a decoded byte_count:
it pumps the SPI shift register and runs read_loop, and after the loop
(lines 172-183) waits one more clocked step, then releases both data buses
(DDRC = 0, data bits of DDRD cleared) and drives port C, port D and hence
the busy/idle line back to 0, the idle level, before jumping to main_loop. -/
def do_read (spi : Nat → Nat) (byte_count : Nat) : ReadResult :=
  { presented := read_loop spi 0 byte_count
    finalBus := { ddrc := 0, portc := 0, ddrd := 16, portd := 0 } }

/-! ## Relay controller: card-detect mirror (src/avr/main.c lines 54-80) -/

/-- Levels of the card-detect input (cd, PB0) and the driven interrupt
mirror output (ack, PB1). -/
structure AvrCD where
  cd : Bool
  ack : Bool
deriving DecidableEq, Repr

/-- Reset state of the mirror: main (line 65) initialises PORTB with the SS
and CD bits set and the ACK bit clear, so the mirror output starts low
whatever the detect line reads at power-up. -/
def avr_boot (cd0 : Bool) : AvrCD :=
  { cd := cd0, ack := false }

/-- The pin-change handler ISR(PCINT0_vect) (lines 54-59): it samples the
current CD level and drives ACK to its logical inverse. -/
def pcint0_isr (s : AvrCD) : AvrCD :=
  { s with ack := !s.cd }

/-- One transition of the detect line: the level flips and the pin-change
interrupt runs on the new level. -/
def cd_edge (s : AvrCD) : AvrCD :=
  pcint0_isr { s with cd := !s.cd }

/-! ## Amiga driver: constants (src/amiga/source/device.c and the external
exec/trackdisk headers it includes)

The command and error numbers come from the standard AmigaOS exec and
trackdisk headers, which are external to the repository; their values are
the well-known ones.  SD_SECTOR_SHIFT comes from the external sd.h header
(512-byte sectors). -/

def CMD_RESET : Nat := 1
def CMD_READ : Nat := 2
def CMD_WRITE : Nat := 3
def CMD_UPDATE : Nat := 4
def CMD_CLEAR : Nat := 5
def TD_MOTOR : Nat := 9
def TD_FORMAT : Nat := 11
def TD_REMOVE : Nat := 12
def TD_CHANGENUM : Nat := 13
def TD_CHANGESTATE : Nat := 14
def TD_PROTSTATUS : Nat := 15
def TD_GETDRIVETYPE : Nat := 18
def TD_ADDCHANGEINT : Nat := 20
def TD_REMCHANGEINT : Nat := 21
def TD_GETGEOMETRY : Nat := 22

def TDERR_NotSpecified : Int := 20
def TDERR_DiskChanged : Int := 29
def IOERR_OPENFAIL : Int := -1
def IOERR_NOCMD : Int := -3

def DG_DIRECT_ACCESS : Nat := 0
def SD_SECTOR_SHIFT : Nat := 9

/-- Modelled from the spec: the abstract DeviceNotReady error of the
specification error taxonomy (section 7) is the value device_get_geometry
returns when no card is present, which in the source is the trackdisk code
TDERR_DiskChanged. -/
def DeviceNotReady : Int := TDERR_DiskChanged

/-! ## Amiga driver: card info and geometry (src/amiga/source/device.c
lines 125-144) -/

/-- The fields of the external sd_card_info_t that device_get_geometry
reads.  cardType = 0 encodes sdCardType_None. -/
structure SdCardInfo where
  cardType : Nat
  block_size : Nat
  capacity : Nat
deriving DecidableEq, Repr

def sdCardType_None : Nat := 0

/-- The DriveGeometry fields filled in by device_get_geometry. -/
structure DriveGeometry where
  dg_SectorSize : Nat
  dg_TotalSectors : Nat
  dg_Cylinders : Nat
  dg_CylSectors : Nat
  dg_Heads : Nat
  dg_TrackSectors : Nat
  dg_DeviceType : Nat
deriving DecidableEq, Repr

/-- device_get_geometry: when the card info reports a card, it fills the
geometry record (sector size 1 shifted left by block_size, total sectors the
capacity shifted right by block_size) and returns 0; with no card it returns
TDERR_DiskChanged and writes nothing.  The pair is (returned error, record
written through the request data pointer). -/
def device_get_geometry (ci : SdCardInfo) : Int × Option DriveGeometry :=
  if ci.cardType ≠ sdCardType_None then
    (0, some
      { dg_SectorSize := 1 <<< ci.block_size
        dg_TotalSectors := ci.capacity >>> ci.block_size
        dg_Cylinders := ci.capacity >>> ci.block_size
        dg_CylSectors := 1
        dg_Heads := 1
        dg_TrackSectors := 1
        dg_DeviceType := DG_DIRECT_ACCESS })
  else
    (TDERR_DiskChanged, none)

/-! ## Amiga driver: globals and the disk-change interrupt
(src/amiga/source/device.c lines 83-97) -/

/-- The driver globals sw_int (the stored software interrupt, an abstract
pointer modelled as Option Nat, none meaning NULL) and disk_state (0 when a
disk is present, 1 when not). -/
structure DriverState where
  sw_int : Option Nat
  disk_state : Nat
deriving DecidableEq, Repr

/-- Result of one run of the hardware interrupt handler: the new globals and
whether Cause was invoked on the stored software interrupt. -/
structure IsrEffect where
  state : DriverState
  caused : Bool
deriving DecidableEq, Repr

/-- hw_isr (lines 86-97): only when a software interrupt is stored does it
Cause that interrupt and flip disk_state (0 to 1, anything else to 0); with
sw_int NULL it does nothing at all. -/
def hw_isr (s : DriverState) : IsrEffect :=
  match s.sw_int with
  | some _ =>
      { state := { s with disk_state := if s.disk_state = 0 then 1 else 0 }
        caused := true }
  | none => { state := s, caused := false }

/-- n consecutive edges on the detect-mirror line, each running hw_isr. -/
def isr_edges : Nat → DriverState → DriverState
  | 0, s => s
  | n + 1, s => isr_edges n (hw_isr s).state

/-! ## Amiga driver: request dispatch (src/amiga/source/device.c
lines 225-330) -/

/-- The IOStdReq fields the dispatcher reads and writes.  io_DataInt models
the io_Data pointer in its role as the change-interrupt argument of
TD_ADDCHANGEINT (none meaning NULL); data buffers for read/write and the
geometry output are modelled separately. -/
structure IOStdReq where
  io_Command : Nat
  io_Offset : Nat
  io_Length : Nat
  io_DataInt : Option Nat
  io_Actual : Nat
  io_Error : Int
deriving DecidableEq, Repr

/-- The external sd.c operations the dispatcher calls: block read and write
status (0 is success) as functions of sector number and sector count, and
the card info behind sd_get_card_info. -/
structure SdOps where
  read_status : Nat → Nat → Int
  write_status : Nat → Nat → Int
  info : SdCardInfo

/-- A card operation issued over the bridge while serving one request. -/
inductive SdOp where
  | rd (sector count : Nat) : SdOp
  | wr (sector count : Nat) : SdOp
deriving DecidableEq, Repr

/-- Everything one call of the dispatcher produces: the completed request,
the updated driver globals, the card operations issued, and the geometry
record written out (for TD_GETGEOMETRY). -/
structure BeginIoResult where
  req : IOStdReq
  st : DriverState
  issued : List SdOp
  geomOut : Option DriveGeometry
deriving DecidableEq, Repr

/-- The request dispatcher of the driver (the switch statement at
src/amiga/source/device.c lines 225-330).  io_Error is cleared before the
switch; the cases mirror the source one for one: CMD_RESET, CMD_CLEAR,
CMD_UPDATE, TD_MOTOR, TD_CHANGENUM, TD_FORMAT and TD_REMCHANGEINT only log;
TD_PROTSTATUS and TD_REMOVE set io_Actual to 0; TD_ADDCHANGEINT stores the
passed interrupt pointer (or NULL) into sw_int; TD_CHANGESTATE returns
disk_state in io_Actual; TD_GETDRIVETYPE returns DG_DIRECT_ACCESS;
TD_GETGEOMETRY sets io_Actual to 0 and io_Error to the result of
device_get_geometry; CMD_WRITE and CMD_READ shift offset and length right by
SD_SECTOR_SHIFT, issue the card operation, and on status 0 report the full
io_Length transferred with no error, otherwise 0 bytes and
TDERR_NotSpecified; any other command fails with IOERR_NOCMD. -/
def devBeginIo (ops : SdOps) (st : DriverState) (req0 : IOStdReq) : BeginIoResult :=
  let req := { req0 with io_Error := 0 }
  let c := req.io_Command
  if c = CMD_RESET ∨ c = CMD_CLEAR ∨ c = CMD_UPDATE ∨ c = TD_MOTOR ∨
     c = TD_CHANGENUM ∨ c = TD_FORMAT ∨ c = TD_REMCHANGEINT then
    { req := req, st := st, issued := [], geomOut := none }
  else if c = TD_PROTSTATUS then
    { req := { req with io_Actual := 0 }, st := st, issued := [], geomOut := none }
  else if c = TD_ADDCHANGEINT then
    match req.io_DataInt with
    | some p =>
        { req := req, st := { st with sw_int := some p }, issued := [], geomOut := none }
    | none =>
        { req := req, st := { st with sw_int := none }, issued := [], geomOut := none }
  else if c = TD_CHANGESTATE then
    { req := { req with io_Actual := st.disk_state }, st := st, issued := [], geomOut := none }
  else if c = TD_REMOVE then
    { req := { req with io_Actual := 0 }, st := st, issued := [], geomOut := none }
  else if c = TD_GETDRIVETYPE then
    { req := { req with io_Actual := DG_DIRECT_ACCESS }, st := st, issued := [], geomOut := none }
  else if c = TD_GETGEOMETRY then
    let g := device_get_geometry ops.info
    { req := { req with io_Actual := 0, io_Error := g.1 }, st := st, issued := [],
      geomOut := g.2 }
  else if c = CMD_WRITE then
    let sector := req.io_Offset >>> SD_SECTOR_SHIFT
    let cnt := req.io_Length >>> SD_SECTOR_SHIFT
    if ops.write_status sector cnt = 0 then
      { req := { req with io_Actual := req.io_Length, io_Error := 0 }, st := st,
        issued := [SdOp.wr sector cnt], geomOut := none }
    else
      { req := { req with io_Actual := 0, io_Error := TDERR_NotSpecified }, st := st,
        issued := [SdOp.wr sector cnt], geomOut := none }
  else if c = CMD_READ then
    let sector := req.io_Offset >>> SD_SECTOR_SHIFT
    let cnt := req.io_Length >>> SD_SECTOR_SHIFT
    if ops.read_status sector cnt = 0 then
      { req := { req with io_Actual := req.io_Length, io_Error := 0 }, st := st,
        issued := [SdOp.rd sector cnt], geomOut := none }
    else
      { req := { req with io_Actual := 0, io_Error := TDERR_NotSpecified }, st := st,
        issued := [SdOp.rd sector cnt], geomOut := none }
  else
    { req := { req with io_Error := IOERR_NOCMD }, st := st, issued := [], geomOut := none }

/-! ## Amiga driver: device open (src/amiga/source/device.c lines 193-213) -/

/-- Result of __UserDevOpen: the io_Error written back (also the return
value) and whether the unit was attached to the request. -/
structure OpenResult where
  io_Error : Int
  unitAttached : Bool
deriving DecidableEq, Repr

/-- The __UserDevOpen body for a non-NULL request: err starts as
IOERR_OPENFAIL; only when the unit number is 0 and sd_open returns 0 is the
unit attached and err set to 0. -/
def userDevOpen (unit : Nat) (sd_open_status : Int) : OpenResult :=
  if unit = 0 then
    if sd_open_status = 0 then
      { io_Error := 0, unitAttached := true }
    else
      { io_Error := IOERR_OPENFAIL, unitAttached := false }
  else
    { io_Error := IOERR_OPENFAIL, unitAttached := false }

/-- The status the external card interface returns for the single card
operation a CMD_READ or CMD_WRITE request issues: the read status for
CMD_READ, the write status otherwise, both at the sector number and sector
count the dispatcher derives by shifting io_Offset and io_Length right by
SD_SECTOR_SHIFT. -/
def sdStatusFor (ops : SdOps) (req : IOStdReq) : Int :=
  if req.io_Command = CMD_READ then
    ops.read_status (req.io_Offset >>> SD_SECTOR_SHIFT) (req.io_Length >>> SD_SECTOR_SHIFT)
  else
    ops.write_status (req.io_Offset >>> SD_SECTOR_SHIFT) (req.io_Length >>> SD_SECTOR_SHIFT)

/-! Concrete fixtures used by witnesses. -/

/-- Card operations fixture: reads succeed, writes fail, a card is present. -/
def opsW : SdOps :=
  { read_status := fun _ _ => 0
    write_status := fun _ _ => 3
    info := { cardType := 1, block_size := 9, capacity := 1 <<< 20 } }

/-- Card operations fixture with no card present. -/
def opsNoCard : SdOps :=
  { read_status := fun _ _ => 0
    write_status := fun _ _ => 0
    info := { cardType := 0, block_size := 9, capacity := 0 } }

/-- Driver globals fixture. -/
def stW : DriverState :=
  { sw_int := none, disk_state := 0 }

/-- Request fixture with the given command. -/
def reqW (c : Nat) : IOStdReq :=
  { io_Command := c, io_Offset := 0, io_Length := 1024, io_DataInt := some 7,
    io_Actual := 5, io_Error := 9 }

/-! ## Helper lemmas -/

set_option maxRecDepth 8000

/-- Merging the two bus groups of one sampled byte (PIND data bits OR PINC)
reassembles the byte. -/
theorem lor_split_byte : ∀ r < 256, (r &&& 192) ||| (r &&& 63) = r := by decide

/-- The clock-rate eligibility mask on bits 1-5, stated arithmetically. -/
theorem and62_iff_small : ∀ r < 64, ((r &&& 62 = 0) ↔ (r / 2 % 32 = 0)) := by decide

/-- The clock-rate eligibility mask on bits 1-5 for an arbitrary value. -/
theorem and62_iff (b : Nat) : (b &&& 62 = 0) ↔ (b / 2 % 32 = 0) := by
  have hassoc : b &&& 62 = (b &&& 63) &&& 62 := by
    rw [Nat.and_assoc, show (63 : Nat) &&& 62 = 62 from by decide]
  have h63 : b &&& 63 = b % 64 := by
    simpa using Nat.and_pow_two_sub_one_eq_mod b 6
  have hlt : b % 64 < 64 := Nat.mod_lt _ (by omega)
  rw [hassoc, h63, and62_iff_small (b % 64) hlt]
  omega

/-- The bytes presented by read_loop are the next byte_count + 1 bytes of
the SPI stream, in order. -/
theorem read_loop_eq (spi : Nat → Nat) :
    ∀ (c i : Nat),
      read_loop spi i c = (List.range (c + 1)).map (fun k => spi (i + k) % 256) := by
  intro c
  induction c with
  | zero =>
      intro i
      simp [read_loop, List.range_succ]
  | succ n ih =>
      intro i
      have hr : List.range (n + 1 + 1) = 0 :: (List.range (n + 1)).map Nat.succ :=
        List.range_succ_eq_map (n + 1)
      rw [read_loop, ih (i + 1), hr, List.map_cons, List.map_map]
      refine List.cons_eq_cons.mpr ⟨by simp, List.map_congr_left ?_⟩
      intro k _
      simp only [Function.comp_apply, Nat.succ_eq_add_one]
      have h2 : i + 1 + k = i + (k + 1) := by omega
      rw [h2]

/-- With a software interrupt stored, each edge flips disk_state. -/
theorem isr_edges_some (b : Nat) :
    ∀ (n d : Nat), d ≤ 1 →
      isr_edges n { sw_int := some b, disk_state := d } =
        { sw_int := some b, disk_state := (d + n) % 2 } := by
  intro n
  induction n with
  | zero =>
      intro d hd
      simp only [isr_edges]
      congr 1
      omega
  | succ n ih =>
      intro d hd
      interval_cases d
      · rw [isr_edges]
        simp [hw_isr]
        rw [ih 1 (by omega)]
        congr 1
        omega
      · rw [isr_edges]
        simp [hw_isr]
        rw [ih 0 (by omega)]
        congr 1
        omega

/-- With no software interrupt stored, edges leave the globals untouched. -/
theorem isr_edges_none :
    ∀ (n d : Nat), isr_edges n { sw_int := none, disk_state := d } =
      { sw_int := none, disk_state := d } := by
  intro n
  induction n with
  | zero => intro d; rfl
  | succ n ih => intro d; rw [isr_edges]; simpa [hw_isr] using ih d

/-! ## Claim theorems -/

/-- C1 (counterexample): entering the read transfer phase with decoded
count 0 presents one byte on the buses, not zero, refuting the claim that a
count of c presents exactly c bytes with zero bytes moved at c = 0. -/
theorem read_count_zero_presents_one_byte :
    (do_read (fun _ => 170) 0).presented.length = 1 ∧
    (do_read (fun _ => 170) 0).presented ≠ [] := by decide

/-- C1 (amended): for every decoded count c up to 8191, the read transfer
phase presents exactly c + 1 bytes, namely the first c + 1 bytes delivered
by the card interface in order (one per clocked step), and then releases
both data buses (direction registers cleared to inputs) and drives the
busy/idle line back to the idle level 0 before returning to frame-wait;
in particular c = 0 presents a single byte and does not hang. -/
theorem read_transfer_presents_count_plus_one (spi : Nat → Nat) (c : Nat)
    (h : c ≤ 8191) :
    (do_read spi c).presented.length = c + 1 ∧
    (do_read spi c).presented = (List.range (c + 1)).map (fun k => spi k % 256) ∧
    (do_read spi c).finalBus = { ddrc := 0, portc := 0, ddrd := 16, portd := 0 } := by
  refine ⟨?_, ?_, rfl⟩
  · show (read_loop spi 0 c).length = c + 1
    rw [read_loop_eq spi c 0]
    simp
  · show read_loop spi 0 c = (List.range (c + 1)).map (fun k => spi k % 256)
    rw [read_loop_eq spi c 0]
    simp

/-- C1 (witness): the amended theorem applied at count 2 with the identity
stream. -/
theorem read_transfer_presents_count_plus_one_witness :
    (do_read (fun k => k) 2).presented.length = 2 + 1 :=
  (read_transfer_presents_count_plus_one (fun k => k) 2 (by decide)).1

/-- C2 (counterexample): on header byte 193 (top bit 1, bit 6 set,
bits 1-5 zero, bit 0 set) followed by byte 0, the source decodes a
fast-clock command after one byte, while the algorithm as the claim words
it (bit 6 of the SECOND byte decides the long-header shape) would decode a
write transfer of count 256 over two bytes. -/
theorem frame_decode_differs_from_spec_wording :
    decode_frame 193 0 = (BusFrame.setClock SPCR_FAST, 1) ∧
    decode_frame_spec 193 0 = (BusFrame.writeXfer 256, 2) ∧
    decode_frame 193 0 ≠ decode_frame_spec 193 0 := by decide

/-- C2 (amended): for byte values, the frame decoding of the source follows
the amended algorithm: if the top bit of byte 0 is 0 it is a single-byte
header whose bit 6 selects read (set) vs write (clear) with a 6-bit count;
otherwise, if bit 6 of BYTE 0 is 0, a second byte is sampled on the next
clocked step and the frame is a long header with count equal to the low
five bits of byte 0 times 256 plus byte 1, direction from bit 5 of byte 0;
otherwise, when bits 1-5 of byte 0 are all zero, the frame is a clock-rate
command selected by bit 0 of byte 0 with no second byte sampled. -/
theorem frame_decode_matches_amended_algorithm (b0 b1 : Nat)
    (h0 : b0 < 256) (h1 : b1 < 256) :
    decode_frame b0 b1 = decode_frame_amended b0 b1 := by
  have e7 : b0 &&& 128 = (b0.testBit 7).toNat * 128 := by
    simpa using Nat.and_two_pow b0 7
  have e6 : b0 &&& 64 = (b0.testBit 6).toNat * 64 := by
    simpa using Nat.and_two_pow b0 6
  have e5 : b0 &&& 32 = (b0.testBit 5).toNat * 32 := by
    simpa using Nat.and_two_pow b0 5
  have e1 : b0 &&& 1 = (b0.testBit 0).toNat := by
    simpa using Nat.and_two_pow b0 0
  have e63 : b0 &&& 63 = b0 % 64 := by
    simpa using Nat.and_pow_two_sub_one_eq_mod b0 6
  have e31 : b0 &&& 31 = b0 % 32 := by
    simpa using Nat.and_pow_two_sub_one_eq_mod b0 5
  have ecount : ((b0 &&& 31) <<< 8) ||| ((b1 &&& 192) ||| (b1 &&& 63)) =
      (b0 % 32) * 256 + b1 % 256 := by
    rw [lor_split_byte b1 h1, e31, Nat.shiftLeft_eq, Nat.mod_eq_of_lt h1,
      mul_comm (b0 % 32) (2 ^ 8), ← Nat.mul_add_lt_is_or h1 (b0 % 32)]
  have e62 := and62_iff b0
  unfold decode_frame decode_frame_amended
  cases h7 : b0.testBit 7 <;> cases h6 : b0.testBit 6
  · simp [e7, e6, e63, h7, h6]
  · simp [e7, e6, e63, h7, h6]
  · -- top bit set, bit 6 clear: long header
    cases h5 : b0.testBit 5 <;>
      simp [e7, e6, e5, h7, h6, h5, ecount]
  · -- top bit set, bit 6 set: clock-rate or fallthrough
    by_cases hc : b0 / 2 % 32 = 0
    · cases hbit0 : b0.testBit 0 <;>
        simp [e7, e6, e1, h7, h6, hbit0, hc, e62.mpr hc]
    · have : ¬ (b0 &&& 62 = 0) := fun hcontra => hc (e62.mp hcontra)
      simp [e7, e6, h7, h6, hc, this]

/-- C2 (witness): the amended equivalence applied at the concrete long
header bytes 162 and 7. -/
theorem frame_decode_matches_amended_algorithm_witness :
    decode_frame 162 7 = decode_frame_amended 162 7 :=
  frame_decode_matches_amended_algorithm 162 7 (by decide) (by decide)

/-- C3 (counterexample): with no software interrupt stored, an edge leaves
disk_state unchanged at 0, refuting the claim that the shadow state toggles
unconditionally (a toggle from Present would give 1). -/
theorem isr_without_binding_does_not_toggle :
    (hw_isr { sw_int := none, disk_state := 0 }).state.disk_state = 0 ∧
    ¬ (hw_isr { sw_int := none, disk_state := 0 }).state.disk_state = 1 ∧
    (hw_isr { sw_int := none, disk_state := 0 }).caused = false := by decide

/-- C3 (amended): the shadow state toggles on an edge only while a change
notification binding is installed; with a binding installed throughout,
n consecutive edges starting from Present (disk_state 0) leave the shadow
state at Present when n is even and Absent (1) when n is odd, while with no
binding installed the shadow state stays at Present whatever n is. -/
theorem isr_toggle_parity_with_binding (n b : Nat) :
    (isr_edges n { sw_int := some b, disk_state := 0 }).disk_state = n % 2 ∧
    (isr_edges n { sw_int := none, disk_state := 0 }).disk_state = 0 := by
  constructor
  · rw [isr_edges_some b n 0 (by omega)]
    simp
  · rw [isr_edges_none n 0]

/-- C4 (counterexample): at power-up with a card already inserted (detect
line low), the boot state drives the mirror line low, which is not the
logical inverse of the detect level, refuting the claim for the moment
before any transition occurs. -/
theorem boot_mirror_not_inverse_with_card_present :
    (avr_boot false).ack = false ∧
    ¬ ((avr_boot false).ack = !(avr_boot false).cd) := by decide

/-- C4 (amended): after every detect-line transition the pin-change handler
makes the mirror line the logical inverse of the current detect level,
bit-for-bit with no debouncing; before any transition the mirror is driven
low, which coincides with the inverse only when the detect line reads high
(no card present at power-up). -/
theorem mirror_inverse_after_every_edge (s : AvrCD) :
    (cd_edge s).ack = !(cd_edge s).cd ∧
    (avr_boot true).ack = !(avr_boot true).cd := by
  cases s
  simp [cd_edge, pcint0_isr, avr_boot]

/-- C5 (counterexample): header byte 130 (top bit set, bits 1-5 nonzero)
followed by byte 64 (bit 6 set) satisfies the claimed rejection shape, yet
the source treats it as a long header and enters a write transfer of count
576 after consuming a second byte, refuting the claim that such frames are
rejected without entering a transfer. -/
theorem unrecognized_header_spec_shape_enters_transfer :
    (130 &&& 128 ≠ 0) ∧ (64 &&& 64 ≠ 0) ∧ (130 &&& 62 ≠ 0) ∧
    decode_frame 130 64 = (BusFrame.writeXfer 576, 2) ∧
    (decode_frame 130 64).1 ≠ BusFrame.noFrame := by decide

/-- C5 (amended): the header shape the source leaves unmatched is top bit
of byte 0 set, bit 6 of BYTE 0 set and bits 1-5 of byte 0 nonzero; every
such header is dropped after the single header byte, returning silently to
frame-wait with no transfer phase entered, no further byte exchanged and no
clock-rate change. -/
theorem unrecognized_header_rejected_to_wait (b0 b1 : Nat)
    (h7 : b0 &&& 128 ≠ 0) (h6 : b0 &&& 64 ≠ 0) (h15 : b0 &&& 62 ≠ 0) :
    decode_frame b0 b1 = (BusFrame.noFrame, 1) := by
  simp [decode_frame, h7, h6, h15]

/-- C5 (witness): the amended rejection applied at header byte 194. -/
theorem unrecognized_header_rejected_to_wait_witness :
    decode_frame 194 0 = (BusFrame.noFrame, 1) :=
  unrecognized_header_rejected_to_wait 194 0 (by decide) (by decide) (by decide)

/-- C6: a CMD_READ or CMD_WRITE request completes with the full requested
byte length in io_Actual and no error when the underlying card operation
returns status 0, and with zero bytes in io_Actual and the generic error
TDERR_NotSpecified when it returns any other status. -/
theorem read_write_completion_status (ops : SdOps) (st : DriverState)
    (req : IOStdReq)
    (h : req.io_Command = CMD_READ ∨ req.io_Command = CMD_WRITE) :
    (sdStatusFor ops req = 0 →
      (devBeginIo ops st req).req.io_Actual = req.io_Length ∧
      (devBeginIo ops st req).req.io_Error = 0) ∧
    (sdStatusFor ops req ≠ 0 →
      (devBeginIo ops st req).req.io_Actual = 0 ∧
      (devBeginIo ops st req).req.io_Error = TDERR_NotSpecified) := by
  rcases h with h | h
  · constructor <;> intro hs <;>
      simp_all [devBeginIo, sdStatusFor, CMD_READ, CMD_WRITE, CMD_RESET,
        CMD_CLEAR, CMD_UPDATE, TD_MOTOR, TD_CHANGENUM, TD_FORMAT,
        TD_REMCHANGEINT, TD_PROTSTATUS, TD_ADDCHANGEINT, TD_CHANGESTATE,
        TD_REMOVE, TD_GETDRIVETYPE, TD_GETGEOMETRY]
  · constructor <;> intro hs <;>
      simp_all [devBeginIo, sdStatusFor, CMD_READ, CMD_WRITE, CMD_RESET,
        CMD_CLEAR, CMD_UPDATE, TD_MOTOR, TD_CHANGENUM, TD_FORMAT,
        TD_REMCHANGEINT, TD_PROTSTATUS, TD_ADDCHANGEINT, TD_CHANGESTATE,
        TD_REMOVE, TD_GETDRIVETYPE, TD_GETGEOMETRY]

/-- C6 (witness): a CMD_READ request of 1024 bytes against the fixture
whose reads succeed reports 1024 bytes transferred. -/
theorem read_write_completion_status_witness :
    (devBeginIo opsW stW (reqW 2)).req.io_Actual = (reqW 2).io_Length ∧
    (devBeginIo opsW stW (reqW 2)).req.io_Error = 0 :=
  (read_write_completion_status opsW stW (reqW 2) (Or.inl rfl)).1 rfl

/-- C7: a TD_GETGEOMETRY request with no card present fails with the
DeviceNotReady error and issues no card operation; with a card present it
succeeds with error 0, still issues no card operation, and writes a
geometry record whose sector size is 1 shifted left by the card block size
and whose total sector count is the card capacity shifted right by the
block size. -/
theorem geometry_query_behavior (ops : SdOps) (st : DriverState)
    (req : IOStdReq) (h : req.io_Command = TD_GETGEOMETRY) :
    (ops.info.cardType = sdCardType_None →
      (devBeginIo ops st req).req.io_Error = DeviceNotReady ∧
      (devBeginIo ops st req).issued = [] ∧
      (devBeginIo ops st req).geomOut = none) ∧
    (ops.info.cardType ≠ sdCardType_None →
      (devBeginIo ops st req).req.io_Error = 0 ∧
      (devBeginIo ops st req).issued = [] ∧
      (devBeginIo ops st req).geomOut = some
        { dg_SectorSize := 1 <<< ops.info.block_size
          dg_TotalSectors := ops.info.capacity >>> ops.info.block_size
          dg_Cylinders := ops.info.capacity >>> ops.info.block_size
          dg_CylSectors := 1
          dg_Heads := 1
          dg_TrackSectors := 1
          dg_DeviceType := DG_DIRECT_ACCESS }) := by
  constructor <;> intro hc <;>
    simp_all [devBeginIo, device_get_geometry, DeviceNotReady, CMD_READ,
      CMD_WRITE, CMD_RESET, CMD_CLEAR, CMD_UPDATE, TD_MOTOR, TD_CHANGENUM,
      TD_FORMAT, TD_REMCHANGEINT, TD_PROTSTATUS, TD_ADDCHANGEINT,
      TD_CHANGESTATE, TD_REMOVE, TD_GETDRIVETYPE, TD_GETGEOMETRY]

/-- C7 (witness): a geometry query against the no-card fixture fails with
DeviceNotReady and issues nothing. -/
theorem geometry_query_behavior_witness :
    (devBeginIo opsNoCard stW (reqW 22)).req.io_Error = DeviceNotReady ∧
    (devBeginIo opsNoCard stW (reqW 22)).issued = [] ∧
    (devBeginIo opsNoCard stW (reqW 22)).geomOut = none :=
  (geometry_query_behavior opsNoCard stW (reqW 22) rfl).1 rfl

/-- C8 (counterexample): a TD_REMCHANGEINT request on a state with a
binding installed leaves the binding installed, refuting the claim that a
de-registration request clears the currently installed binding. -/
theorem remchangeint_leaves_binding_installed :
    (devBeginIo opsW { sw_int := some 5, disk_state := 0 } (reqW 21)).st.sw_int
      = some 5 ∧
    (devBeginIo opsW { sw_int := some 5, disk_state := 0 } (reqW 21)).st.sw_int
      ≠ none := by decide

/-- C8 (amended): at most one change notification binding is active at a
time: a TD_ADDCHANGEINT request installs exactly the passed binding,
replacing any previous one, with a null argument disabling notification;
a TD_REMCHANGEINT request however is a no-op that leaves whatever binding
is currently installed unchanged. -/
theorem change_binding_install_and_remove (ops : SdOps) (st : DriverState)
    (req : IOStdReq) :
    (req.io_Command = TD_ADDCHANGEINT →
      (devBeginIo ops st req).st.sw_int = req.io_DataInt) ∧
    (req.io_Command = TD_REMCHANGEINT →
      (devBeginIo ops st req).st.sw_int = st.sw_int) := by
  constructor <;> intro h
  · rcases hd : req.io_DataInt with _ | p <;>
      simp_all [devBeginIo, CMD_READ, CMD_WRITE, CMD_RESET, CMD_CLEAR,
        CMD_UPDATE, TD_MOTOR, TD_CHANGENUM, TD_FORMAT, TD_REMCHANGEINT,
        TD_PROTSTATUS, TD_ADDCHANGEINT, TD_CHANGESTATE, TD_REMOVE,
        TD_GETDRIVETYPE, TD_GETGEOMETRY]
  · simp_all [devBeginIo, CMD_READ, CMD_WRITE, CMD_RESET, CMD_CLEAR,
      CMD_UPDATE, TD_MOTOR, TD_CHANGENUM, TD_FORMAT, TD_REMCHANGEINT,
      TD_PROTSTATUS, TD_ADDCHANGEINT, TD_CHANGESTATE, TD_REMOVE,
      TD_GETDRIVETYPE, TD_GETGEOMETRY]

/-- C8 (witness): installing the fixture binding 7 through TD_ADDCHANGEINT
stores exactly that binding. -/
theorem change_binding_install_and_remove_witness :
    (devBeginIo opsW stW (reqW 20)).st.sw_int = (reqW 20).io_DataInt :=
  (change_binding_install_and_remove opsW stW (reqW 20)).1 rfl

/-- C9: a TD_PROTSTATUS request always completes with io_Actual 0 (card
reported not write protected) and no error, whatever the card state, so
the write-protected case is never reported. -/
theorem protstatus_always_zero (ops : SdOps) (st : DriverState)
    (req : IOStdReq) (h : req.io_Command = TD_PROTSTATUS) :
    (devBeginIo ops st req).req.io_Actual = 0 ∧
    (devBeginIo ops st req).req.io_Error = 0 := by
  simp_all [devBeginIo, CMD_READ, CMD_WRITE, CMD_RESET, CMD_CLEAR,
    CMD_UPDATE, TD_MOTOR, TD_CHANGENUM, TD_FORMAT, TD_REMCHANGEINT,
    TD_PROTSTATUS, TD_ADDCHANGEINT, TD_CHANGESTATE, TD_REMOVE,
    TD_GETDRIVETYPE, TD_GETGEOMETRY]

/-- C9 (witness): the protection-status theorem at the fixtures. -/
theorem protstatus_always_zero_witness :
    (devBeginIo opsW stW (reqW 15)).req.io_Actual = 0 ∧
    (devBeginIo opsW stW (reqW 15)).req.io_Error = 0 :=
  protstatus_always_zero opsW stW (reqW 15) rfl

/-- C10: opening the device succeeds only for unit 0: when the unit number
is nonzero or the card-interface open fails, the open request fails with
IOERR_OPENFAIL and the unit is not attached; and an open reports success
exactly when the unit is 0 and sd_open returned 0. -/
theorem open_fails_unless_unit_zero_and_sd_ok (unit : Nat)
    (sd_open_status : Int)
    (h : unit ≠ 0 ∨ sd_open_status ≠ 0) :
    userDevOpen unit sd_open_status =
      { io_Error := IOERR_OPENFAIL, unitAttached := false } ∧
    ((userDevOpen unit sd_open_status).io_Error = 0 ↔
      (unit = 0 ∧ sd_open_status = 0)) := by
  constructor
  · rcases h with h | h
    · simp [userDevOpen, h]
    · by_cases hu : unit = 0 <;> simp [userDevOpen, hu, h]
  · by_cases hu : unit = 0 <;> by_cases hs : sd_open_status = 0 <;>
      simp [userDevOpen, hu, hs, IOERR_OPENFAIL]

/-- C10 (witness): opening unit 1 with a successful card open still fails
with IOERR_OPENFAIL and no unit attached. -/
theorem open_fails_unless_unit_zero_and_sd_ok_witness :
    userDevOpen 1 0 = { io_Error := IOERR_OPENFAIL, unitAttached := false } :=
  (open_fails_unless_unit_zero_and_sd_ok 1 0 (Or.inl (by decide))).1
